import Mathlib

set_option maxRecDepth 100000

/-
Verification of the PRNG lifecycle subsystem of libtomcrypt
(src/prngs/sober128.c: the sober128 PRNG binding and the rc4 PRNG binding).

The lifecycle layer (start, add_entropy, ready, read, done, export,
the import operation, test) is embedded from the C source.  The ciphers
themselves (rc4_setup, rc4_keystream, rc4_done, sober128_setup,
sober128_setiv, sober128_keystream, sober128_done) are external collaborators
whose sources are not part of this subsystem; they are modelled from the
spec's collaborator capability (section 6): setup(key) -> generator,
optional set_iv(generator, iv), next(generator, n) -> n bytes which fails
only on an internal fault, destroy(generator).  The pseudorandom byte
mathematics are out of scope, so every definition and theorem is
parametrized by an arbitrary byte function G : key -> iv -> position -> byte.
-/

/-- Result codes of the library operations (CRYPT_OK, CRYPT_INVALID_ARG,
CRYPT_ERROR, CRYPT_BUFFER_OVERFLOW, CRYPT_ERROR_READPRNG, CRYPT_NOP,
CRYPT_FAIL_TESTVECTOR). -/
inductive CryptCode where
  | ok
  | invalidArg
  | genericError
  | bufferOverflow
  | readPrng
  | nop
  | failTestvector
  deriving DecidableEq, Repr

/-- Modelled from the spec: the state of the external keystream-generator
collaborator ("given a key and optional IV, produce any number of
pseudorandom output bytes on demand, and be fully reset/destroyed on
demand").  The concrete cipher sources are not part of this subsystem, so the
generator is modelled by its key bytes, IV bytes, current stream position,
and an internal-fault indicator (spec: next "fails only on internal fault"). -/
structure GenState where
  key : List Nat
  iv : List Nat
  pos : Nat
  fault : Bool
  deriving DecidableEq, Repr

/-- An arbitrary pseudorandom byte function: key bytes, IV bytes and stream
position determine the output byte.  The cipher mathematics are out of scope
of the subsystem, so all theorems hold for every such function. -/
abbrev ByteFn := List Nat → List Nat → Nat → Nat

/-- Modelled from the spec: the keystream byte of generator `g` at absolute
stream position `i`, for byte function `G`. -/
def genByte (G : ByteFn) (g : GenState) (i : Nat) : Nat :=
  G g.key g.iv i % 256

/-- Modelled from the spec: the next `n` keystream bytes of generator `g`
(positions `g.pos` to `g.pos + n - 1`). -/
def ksBytes (G : ByteFn) (g : GenState) (n : Nat) : List Nat :=
  (List.range n).map (fun i => genByte G g (g.pos + i))

/-- Modelled from the spec: sober128_keystream, the collaborator's
`next(generator, n)`: fails only on an internal fault (leaving the generator
unchanged), otherwise yields `n` bytes and consumes `n` positions. -/
def sober128_keystream (G : ByteFn) (g : GenState) (n : Nat) :
    CryptCode × List Nat × GenState :=
  if g.fault then (.genericError, [], g)
  else (.ok, ksBytes G g n, { g with pos := g.pos + n })

/-- Modelled from the spec: sober128_setup, the collaborator's
`setup(key) -> generator`: a fresh generator keyed with the given bytes. -/
def sober128_setup (key : List Nat) : GenState :=
  { key := key, iv := [], pos := 0, fault := false }

/-- Modelled from the spec: sober128_setiv, the collaborator's optional
`set_iv(generator, iv)`. -/
def sober128_setiv (g : GenState) (iv : List Nat) : GenState :=
  { g with iv := iv, pos := 0 }

/-- Modelled from the spec: sober128_done, the collaborator's
`destroy(generator)`: the generator is fully reset. -/
def sober128_done (_g : GenState) : CryptCode × GenState :=
  (.ok, { key := [], iv := [], pos := 0, fault := false })

/-- Modelled from the spec: rc4_keystream, the collaborator's
`next(generator, n)` for the rc4 binding. -/
def rc4_keystream (G : ByteFn) (g : GenState) (n : Nat) :
    CryptCode × List Nat × GenState :=
  if g.fault then (.genericError, [], g)
  else (.ok, ksBytes G g n, { g with pos := g.pos + n })

/-- Modelled from the spec: rc4_setup, the collaborator's
`setup(key) -> generator` for the rc4 binding (no IV for this cipher). -/
def rc4_setup (key : List Nat) : GenState :=
  { key := key, iv := [], pos := 0, fault := false }

/-- Modelled from the spec: rc4_done, the collaborator's
`destroy(generator)` for the rc4 binding. -/
def rc4_done (_g : GenState) : CryptCode × GenState :=
  (.ok, { key := [], iv := [], pos := 0, fault := false })

/-- The entropy-accumulation / wrapping-XOR loop shared by both bindings:
for each input byte `b` in order, `buf[idx % cap] ^= b` and the running index
is incremented (sober128.c line 80 with `idx = prng->sober128.idx`, rc4
line 319 with `idx = prng->rc4.s.x`, and the rekey mixing loops lines 70 and
311 with `idx = 0`). -/
def poolAccum (cap : Nat) : List Nat → List Nat → Nat → List Nat
  | [], buf, _ => buf
  | b :: bs, buf, idx =>
      poolAccum cap bs (buf.set (idx % cap) (Nat.xor (buf.getD (idx % cap) 0) b)) (idx + 1)

/-- The index written by the `j`-th step of the accumulation loop started at
write index `idx`. -/
def poolWriteIndex (cap idx j : Nat) : Nat := (idx + j) % cap

/-- The rekey mixing loop: `buf[i % cap] ^= in[i]` for `i = 0 .. n-1`
(sober128.c line 70, rc4 line 311): the accumulation loop started at 0. -/
def mixWrap (cap : Nat) (buf : List Nat) (input : List Nat) : List Nat :=
  poolAccum cap input buf 0

/-- The sober128 PRNG state: `ready` flag, the 40-byte entropy pool
`prng->sober128.ent`, its write index `prng->sober128.idx`, and the cipher
state `prng->sober128.s` (modelled abstractly). -/
structure Sober128Prng where
  ready : Bool
  ent : List Nat
  idx : Nat
  s : GenState
  deriving DecidableEq, Repr

/-- sober128_prng_start (sober128.c lines 39-47): clears the ready flag,
zeroes the 40-byte pool, resets the write index.  The cipher state `s` is not
touched. -/
def sober128_prng_start (st : Sober128Prng) : CryptCode × Sober128Prng :=
  (.ok, { st with ready := false, ent := List.replicate 40 0, idx := 0 })

/-- The rekey branch of sober128_prng_add_entropy (sober128.c lines 69-76):
draw 40 keystream bytes into a local buffer, XOR the input into it with
wrap-around at 40, key the new generator from bytes 0-31 and set its IV from
bytes 32-39, then zero the local buffer.  Returns the result code, the new
generator, and the final contents of the local mixing buffer (the C zeroes
it at line 76; on a keystream fault the buffer is never written). -/
def sober128_rekey (G : ByteFn) (input : List Nat) (g : GenState) :
    CryptCode × GenState × List Nat :=
  match sober128_keystream G g 40 with
  | (.ok, ks, _) =>
      let buf := mixWrap 40 ks input
      (.ok, sober128_setiv (sober128_setup (buf.take 32)) (buf.drop 32),
        List.replicate 40 0)
  | (c, _, g1) => (c, g1, [])

/-- sober128_prng_add_entropy (sober128.c lines 56-86): rejects empty input;
when ready, performs the rekey; otherwise XOR-accumulates the input into the
pool, incrementing the write index per byte. -/
def sober128_prng_add_entropy (G : ByteFn) (input : List Nat)
    (st : Sober128Prng) : CryptCode × Sober128Prng :=
  if input.length = 0 then (.invalidArg, st)
  else if st.ready then
    match sober128_rekey G input st.s with
    | (.ok, g2, _) => (.ok, { st with s := g2 })
    | (c, g1, _) => (c, { st with s := g1 })
  else
    (.ok, { st with ent := poolAccum 40 input st.ent st.idx,
                    idx := st.idx + input.length })

/-- sober128_prng_ready (sober128.c lines 93-111): succeeds immediately if
already ready; otherwise keys the generator from pool bytes 0-31, sets its
IV from pool bytes 32-39, zeroes the pool, resets the index and sets the
ready flag.  There is no minimum-accumulation check. -/
def sober128_prng_ready (st : Sober128Prng) : CryptCode × Sober128Prng :=
  if st.ready then (.ok, st)
  else
    (.ok, { st with s := sober128_setiv (sober128_setup (st.ent.take 32)) (st.ent.drop 32),
                    ent := List.replicate 40 0, idx := 0, ready := true })

/-- sober128_prng_read (sober128.c lines 120-127): returns 0 if the length is
zero or the prng or output reference is NULL (the output reference is
modelled by the `outValid` flag); returns 0 if the keystream call fails;
otherwise returns exactly `outlen` keystream bytes. -/
def sober128_prng_read (G : ByteFn) (outlen : Nat) (outValid : Bool)
    (prng : Option Sober128Prng) : Nat × List Nat × Option Sober128Prng :=
  match prng with
  | none => (0, [], none)
  | some st =>
      if outlen = 0 ∨ outValid = false then (0, [], some st)
      else
        match sober128_keystream G st.s outlen with
        | (.ok, bytes, s1) => (outlen, bytes, some { st with s := s1 })
        | (_, _, s1) => (0, [], some { st with s := s1 })

/-- sober128_prng_done (sober128.c lines 134-143): clears the ready flag and
destroys the cipher state; the pool and its index are not touched. -/
def sober128_prng_done (st : Sober128Prng) : CryptCode × Sober128Prng :=
  match sober128_done st.s with
  | (err, s1) => (err, { st with ready := false, s := s1 })

/-- sober128_prng_export (sober128.c lines 152-171): a 40-byte blob; if the
destination capacity is smaller, reports 40 through the size parameter and
fails with CRYPT_BUFFER_OVERFLOW before touching the generator; otherwise
reads 40 bytes of keystream and fails with CRYPT_ERROR_READPRNG if the read
returned fewer.  Result: code, the final value of the in/out size parameter,
the blob bytes, and the final prng state. -/
def sober128_prng_export (G : ByteFn) (outCap : Nat) (st : Sober128Prng) :
    CryptCode × Nat × List Nat × Sober128Prng :=
  if outCap < 40 then (.bufferOverflow, 40, [], st)
  else
    match sober128_prng_read G 40 true (some st) with
    | (n, bytes, some st1) =>
        if n ≠ 40 then (.readPrng, outCap, bytes, st1)
        else (.ok, 40, bytes, st1)
    | (_, _, none) => (.readPrng, outCap, [], st)

/-- sober128_prng_import (sober128.c lines 180-191): rejects blobs shorter
than 40 bytes with CRYPT_INVALID_ARG, otherwise runs start and then
add_entropy on the blob, propagating any error. -/
def sober128_prng_import (G : ByteFn) (input : List Nat)
    (st : Sober128Prng) : CryptCode × Sober128Prng :=
  if input.length < 40 then (.invalidArg, st)
  else
    match sober128_prng_start st with
    | (.ok, st1) => sober128_prng_add_entropy G input st1
    | (c, st1) => (c, st1)

/-- The rc4 PRNG state: `ready` flag, the 256-byte buffer `prng->rc4.s.buf`
used as the entropy pool while accumulating, the counter `prng->rc4.s.x`
used as the pool write index while accumulating, and the live cipher
generator once keyed.  (In the C source the pool buffer and index are fields
of the cipher state `rc4_state` that rc4_setup later overwrites; the cipher
internals are external to this subsystem, so the model keeps the pool fields
and the abstract generator side by side.) -/
structure RC4Prng where
  ready : Bool
  buf : List Nat
  x : Nat
  s : GenState
  deriving DecidableEq, Repr

/-- rc4_prng_start (rc4 section lines 278-288): clears the ready flag, sets
the entropy size `x` to zero and zeroes the 256-byte entropy buffer. -/
def rc4_prng_start (st : RC4Prng) : CryptCode × RC4Prng :=
  (.ok, { st with ready := false, x := 0, buf := List.replicate 256 0 })

/-- One iteration of the post-keying discard loop
`rc4_keystream(&prng->rc4.s, buf, 256)` with the output thrown away
(rc4 section lines 315 and 348; the return value is ignored there). -/
def ksStep (G : ByteFn) (g : GenState) : GenState :=
  (rc4_keystream G g 256).2.2

/-- The full discard loop `for (i = 0; i < 12; i++) rc4_keystream(.., 256)`
(rc4 section lines 315 and 348): 12 runs of 256 discarded bytes. -/
def rc4_discard (G : ByteFn) (g : GenState) : GenState :=
  ksStep G (ksStep G (ksStep G (ksStep G (ksStep G (ksStep G
    (ksStep G (ksStep G (ksStep G (ksStep G (ksStep G (ksStep G g)))))))))))

/-- The rekey branch of rc4_prng_add_entropy (rc4 section lines 310-315):
draw 256 keystream bytes into a local buffer, XOR the input into it with
wrap-around at 256, key the new generator with the full 256-byte buffer,
then generate and discard 12 x 256 bytes. -/
def rc4_rekey (G : ByteFn) (input : List Nat) (g : GenState) :
    CryptCode × GenState :=
  match rc4_keystream G g 256 with
  | (.ok, ks, _) =>
      let buf := mixWrap 256 ks input
      (.ok, rc4_discard G (rc4_setup (buf.take 256)))
  | (c, _, g1) => (c, g1)

/-- rc4_prng_add_entropy (rc4 section lines 297-325): rejects empty input;
when ready, performs the rekey; otherwise XOR-accumulates the input into the
buffer, incrementing `x` per byte. -/
def rc4_prng_add_entropy (G : ByteFn) (input : List Nat) (st : RC4Prng) :
    CryptCode × RC4Prng :=
  if input.length = 0 then (.invalidArg, st)
  else if st.ready then
    match rc4_rekey G input st.s with
    | (.ok, g2) => (.ok, { st with s := g2 })
    | (c, g1) => (c, { st with s := g1 })
  else
    (.ok, { st with buf := poolAccum 256 input st.buf st.x,
                    x := st.x + input.length })

/-- rc4_prng_ready (rc4 section lines 332-353): succeeds immediately if
already ready; takes `len = MIN(x, 256)` and fails with CRYPT_ERROR if
`len < 5`; otherwise keys the generator with the first `len` accumulated
bytes, generates and discards 12 x 256 bytes, and sets the ready flag. -/
def rc4_prng_ready (G : ByteFn) (st : RC4Prng) : CryptCode × RC4Prng :=
  if st.ready then (.ok, st)
  else
    if min st.x 256 < 5 then (.genericError, st)
    else
      (.ok, { st with s := rc4_discard G (rc4_setup (st.buf.take (min st.x 256))),
                      ready := true })

/-- rc4_prng_read (rc4 section lines 362-369): returns 0 if the length is
zero or the prng or output reference is NULL; returns 0 if the keystream
call fails; otherwise returns exactly `outlen` keystream bytes. -/
def rc4_prng_read (G : ByteFn) (outlen : Nat) (outValid : Bool)
    (prng : Option RC4Prng) : Nat × List Nat × Option RC4Prng :=
  match prng with
  | none => (0, [], none)
  | some st =>
      if outlen = 0 ∨ outValid = false then (0, [], some st)
      else
        match rc4_keystream G st.s outlen with
        | (.ok, bytes, s1) => (outlen, bytes, some { st with s := s1 })
        | (_, _, s1) => (0, [], some { st with s := s1 })

/-- rc4_prng_done (rc4 section lines 376-385): clears the ready flag and
destroys the cipher state. -/
def rc4_prng_done (st : RC4Prng) : CryptCode × RC4Prng :=
  match rc4_done st.s with
  | (err, s1) => (err, { st with ready := false, s := s1 })

/-- rc4_prng_export (rc4 section lines 394-413): a 32-byte blob; if the
destination capacity is smaller, reports 32 through the size parameter and
fails with CRYPT_BUFFER_OVERFLOW before touching the generator; otherwise
reads 32 bytes of keystream and fails with CRYPT_ERROR_READPRNG if the read
returned fewer. -/
def rc4_prng_export (G : ByteFn) (outCap : Nat) (st : RC4Prng) :
    CryptCode × Nat × List Nat × RC4Prng :=
  if outCap < 32 then (.bufferOverflow, 32, [], st)
  else
    match rc4_prng_read G 32 true (some st) with
    | (n, bytes, some st1) =>
        if n ≠ 32 then (.readPrng, outCap, bytes, st1)
        else (.ok, 32, bytes, st1)
    | (_, _, none) => (.readPrng, outCap, [], st)

/-- rc4_prng_import (rc4 section lines 422-433): rejects blobs shorter than
32 bytes with CRYPT_INVALID_ARG, otherwise runs start and then add_entropy
on the blob, propagating any error. -/
def rc4_prng_import (G : ByteFn) (input : List Nat) (st : RC4Prng) :
    CryptCode × RC4Prng :=
  if input.length < 32 then (.invalidArg, st)
  else
    match rc4_prng_start st with
    | (.ok, st1) => rc4_prng_add_entropy G input st1
    | (c, st1) => (c, st1)

/-- One lifecycle call of a PRNG self-test routine: the entropy length, read
length and the compare checkpoints are recorded, the state argument is
implicit (the tests drive a single local instance). -/
inductive TestOp where
  | startOp
  | addEntropyOp (n : Nat)
  | readyOp
  | readCmpOp (n : Nat)
  | readOp (n : Nat)
  | exportOp
  | importOp
  | doneOp
  deriving DecidableEq, Repr

/-- The exact sequence of lifecycle calls made by sober128_prng_test
(sober128.c lines 215-233) in the LTC_TEST build: the entropy input is the
fixed 50-byte array `en`, reads of 10 bytes are compared against the literal
expected vectors t1, t2, t3. -/
def sober128_prng_test_calls : List TestOp :=
  [.startOp, .addEntropyOp 50, .readyOp, .readCmpOp 10, .readOp 500,
   .addEntropyOp 50, .readOp 500, .exportOp, .readOp 500, .readCmpOp 10,
   .doneOp, .importOp, .readyOp, .readOp 500, .readCmpOp 10, .doneOp]

/-- The exact sequence of lifecycle calls made by rc4_prng_test (rc4 section
lines 457-473) in the LTC_TEST build. -/
def rc4_prng_test_calls : List TestOp :=
  [.startOp, .addEntropyOp 50, .readyOp, .readCmpOp 10, .readOp 500,
   .exportOp, .readOp 500, .readCmpOp 10, .doneOp, .importOp, .readyOp,
   .readOp 500, .readCmpOp 10, .doneOp]

/-- The self-test call sequence claimed for both bindings, stated from the
spec's words (section 4.4): start, add_entropy(50 bytes), make_ready,
read(10) with comparison, read(500), add_entropy(the same 50 bytes),
read(500), export, read(500), read(10) with comparison, stop, import,
make_ready, read(500), read(10) with comparison, stop. -/
def claimed_self_test_calls : List TestOp :=
  [.startOp, .addEntropyOp 50, .readyOp, .readCmpOp 10, .readOp 500,
   .addEntropyOp 50, .readOp 500, .exportOp, .readOp 500, .readCmpOp 10,
   .doneOp, .importOp, .readyOp, .readOp 500, .readCmpOp 10, .doneOp]

/-- A concrete byte function used to instantiate the universally quantified
theorems on closed inputs. -/
def G0 : ByteFn := fun key iv i => (key.length + 3 * iv.length + 7 * i) % 256

/-- A concrete fresh generator state. -/
def gen0 : GenState := { key := [], iv := [], pos := 0, fault := false }

/-- A concrete generator state whose internal-fault indicator is set. -/
def genFault : GenState := { key := [5], iv := [], pos := 0, fault := true }

/-- A concrete sober128 PRNG instance as it sits before any lifecycle call. -/
def soberInit : Sober128Prng :=
  { ready := false, ent := List.replicate 40 0, idx := 0, s := gen0 }

/-- A concrete rc4 PRNG instance as it sits before any lifecycle call. -/
def rc4Init : RC4Prng :=
  { ready := false, buf := List.replicate 256 0, x := 0, s := gen0 }

/-- The fixed 50-byte entropy array `en` of both self-tests: bytes 1 to 50. -/
def en50 : List Nat := (List.range 50).map (fun i => i + 1)

/-- The accumulation loop never changes the size of the buffer. -/
lemma poolAccum_length (cap : Nat) (input : List Nat) :
    ∀ buf idx, (poolAccum cap input buf idx).length = buf.length := by
  induction input with
  | nil => intro buf idx; rfl
  | cons b bs ih =>
      intro buf idx
      rw [poolAccum, ih]
      exact List.length_set buf _ _

/-- The generator produces exactly as many bytes as requested. -/
lemma ksBytes_length (G : ByteFn) (g : GenState) (n : Nat) :
    (ksBytes G g n).length = n := by
  simp [ksBytes]

/-- Mixing entropy into a buffer never changes its size. -/
lemma mixWrap_length (cap : Nat) (buf input : List Nat) :
    (mixWrap cap buf input).length = buf.length :=
  poolAccum_length cap input buf 0

/-- One discard iteration on a fault-free generator just advances the
position by 256. -/
lemma ksStep_eq (G : ByteFn) (g : GenState) (h : g.fault = false) :
    ksStep G g = { g with pos := g.pos + 256 } := by
  simp [ksStep, rc4_keystream, h]

/-- The full post-keying discard loop on a fault-free generator advances the
position by exactly 12 x 256 = 3072 bytes and changes nothing else. -/
lemma rc4_discard_eq (G : ByteFn) (g : GenState) (h : g.fault = false) :
    rc4_discard G g = { g with pos := g.pos + 3072 } := by
  have e : ∀ (k v : List Nat) (p : Nat),
      ksStep G ⟨k, v, p, false⟩ = ⟨k, v, p + 256, false⟩ := by
    intro k v p
    simp [ksStep, rc4_keystream]
  obtain ⟨k, v, p, f⟩ := g
  simp only [] at h
  subst h
  simp only [rc4_discard, e, GenState.mk.injEq, true_and, and_true]

/-- Claim C1 (amended): an rc4 (Binding A) instance in the accumulating
state fails make_ready with CRYPT_ERROR, leaving the instance unchanged,
exactly when fewer than 5 bytes are usable (min(x, 256) < 5), and succeeds
otherwise; a sober128 (Binding B) instance's make_ready performs no
minimum-accumulation check at all and succeeds however few bytes were
accumulated. -/
theorem c1_make_ready_gate (G : ByteFn) (sa : RC4Prng) (sb : Sober128Prng)
    (ha : sa.ready = false) (hb : sb.ready = false) :
    (min sa.x 256 < 5 → rc4_prng_ready G sa = (CryptCode.genericError, sa))
    ∧ (5 ≤ min sa.x 256 →
        (rc4_prng_ready G sa).1 = CryptCode.ok
        ∧ (rc4_prng_ready G sa).2.ready = true)
    ∧ ((sober128_prng_ready sb).1 = CryptCode.ok
        ∧ (sober128_prng_ready sb).2.ready = true) := by
  refine ⟨?_, ?_, ?_⟩
  · intro h5
    simp [rc4_prng_ready, ha, h5]
  · intro h5
    have hlt : ¬ (min sa.x 256 < 5) := not_lt.mpr h5
    simp [rc4_prng_ready, ha, hlt]
  · simp [sober128_prng_ready, hb]

/-- Claim C1 witness: the theorem applied to the concrete fresh instances. -/
theorem c1_make_ready_gate_witness :
    rc4Init.ready = false ∧ soberInit.ready = false
    ∧ ((sober128_prng_ready soberInit).1 = CryptCode.ok
        ∧ (sober128_prng_ready soberInit).2.ready = true) :=
  ⟨by decide, by decide,
   (c1_make_ready_gate G0 rc4Init soberInit (by decide) (by decide)).2.2⟩

/-- A concrete rc4 instance that has accumulated the 50-byte self-test
entropy. -/
def rc4Acc : RC4Prng :=
  (rc4_prng_add_entropy G0 en50 (rc4_prng_start rc4Init).2).2

/-- A concrete active rc4 instance, obtained by activating `rc4Acc`. -/
def rc4Active : RC4Prng := (rc4_prng_ready G0 rc4Acc).2

/-- Full-length take: a list of length 256 taken at 256 is itself. -/
lemma take_all_of_length (l : List Nat) (n : Nat) (hl : l.length = n) :
    l.take n = l := by
  rw [← hl, List.take_length]

/-- Claim C2 (amended): rc4 make_ready keys the generator with exactly
min(x, 256) accumulated pool bytes and then generates and discards exactly
3072 = 12 x 256 keystream bytes before returning; the rekey performed by
add_entropy on an active instance keys the generator with the full 256-byte
mixed buffer (not with min(write_index, 256) bytes) and likewise generates
and discards exactly 3072 bytes before returning; neither operation hands
any byte to the caller. -/
theorem c2_rc4_keying_discard (G : ByteFn) (st st2 : RC4Prng)
    (input : List Nat) (h1 : st.ready = false) (hbuf : st.buf.length = 256)
    (h5 : 5 ≤ min st.x 256) (h2 : st2.ready = true)
    (hf : st2.s.fault = false) (hin : input.length ≠ 0) :
    ((rc4_prng_ready G st).2.s.key = st.buf.take (min st.x 256)
      ∧ ((rc4_prng_ready G st).2.s.key).length = min st.x 256
      ∧ (rc4_prng_ready G st).2.s.pos = 3072
      ∧ (rc4_prng_ready G st).1 = CryptCode.ok)
    ∧ ((rc4_prng_add_entropy G input st2).2.s.key
          = mixWrap 256 (ksBytes G st2.s 256) input
      ∧ ((rc4_prng_add_entropy G input st2).2.s.key).length = 256
      ∧ (rc4_prng_add_entropy G input st2).2.s.pos = 3072
      ∧ (rc4_prng_add_entropy G input st2).1 = CryptCode.ok) := by
  have hd : ∀ k : List Nat, rc4_discard G (rc4_setup k)
      = { key := k, iv := [], pos := 3072, fault := false } := by
    intro k
    rw [rc4_setup, rc4_discard_eq G _ rfl]
  have hnl : ¬ (min st.x 256 < 5) := not_lt.mpr h5
  have hmixlen : (mixWrap 256 (ksBytes G st2.s 256) input).length = 256 := by
    rw [mixWrap_length, ksBytes_length]
  have htake := take_all_of_length _ _ hmixlen
  constructor
  · refine ⟨?_, ?_, ?_, ?_⟩
    · simp [rc4_prng_ready, h1, hnl, hd]
    · simp only [rc4_prng_ready, h1, hnl]
      simp [hd, List.length_take, hbuf]
    · simp [rc4_prng_ready, h1, hnl, hd]
    · simp [rc4_prng_ready, h1, hnl]
  · refine ⟨?_, ?_, ?_, ?_⟩
    · simp [rc4_prng_add_entropy, hin, h2, rc4_rekey, rc4_keystream, hf, hd, htake]
    · simp [rc4_prng_add_entropy, hin, h2, rc4_rekey, rc4_keystream, hf, hd, htake,
            hmixlen]
    · simp [rc4_prng_add_entropy, hin, h2, rc4_rekey, rc4_keystream, hf, hd]
    · simp [rc4_prng_add_entropy, hin, h2, rc4_rekey, rc4_keystream, hf, hd]

/-- Claim C2 witness: the theorem applied to the concrete accumulated and
active rc4 instances. -/
theorem c2_rc4_keying_discard_witness :
    rc4Acc.ready = false ∧ rc4Acc.buf.length = 256 ∧ 5 ≤ min rc4Acc.x 256
    ∧ rc4Active.ready = true ∧ rc4Active.s.fault = false
    ∧ ([7] : List Nat).length ≠ 0
    ∧ (rc4_prng_ready G0 rc4Acc).2.s.pos = 3072 :=
  ⟨by decide, by decide, by decide, by decide, by decide, by decide,
   (c2_rc4_keying_discard G0 rc4Acc rc4Active [7] (by decide) (by decide)
      (by decide) (by decide) (by decide) (by decide)).1.2.2.1⟩

/-- Claim C2 counterexample: after activating an rc4 instance that had
accumulated 50 bytes (write index 50), a rekey keys the generator with a
256-byte key, not with min(50, 256) = 50 bytes as the claim states. -/
theorem c2_cex :
    rc4Active.ready = true ∧ rc4Active.x = 50
    ∧ (rc4_prng_add_entropy G0 [1] rc4Active).2.s.key.length = 256
    ∧ min rc4Active.x 256 = 50 ∧ (256 : Nat) ≠ 50 := by
  decide

/-- Claim C6 (amended): the sober128 self-test executes exactly the claimed
call sequence; the rc4 self-test executes the same sequence with the
post-checkpoint rekey (the second add_entropy of the same 50 bytes) and the
read(500) right after it omitted. -/
theorem c6_test_call_sequences :
    sober128_prng_test_calls = claimed_self_test_calls
    ∧ rc4_prng_test_calls
        = claimed_self_test_calls.take 5 ++ claimed_self_test_calls.drop 7 := by
  decide

/-- Claim C6 counterexample: the rc4 self-test's call sequence is not the
claimed one — it contains only the initial add_entropy, so no rekey happens
between the first checkpoint and the export. -/
theorem c6_cex :
    rc4_prng_test_calls ≠ claimed_self_test_calls
    ∧ rc4_prng_test_calls.count (TestOp.addEntropyOp 50) = 1 := by
  decide

/-- A concrete sober128 instance that has accumulated the 50-byte self-test
entropy. -/
def soberAcc : Sober128Prng :=
  (sober128_prng_add_entropy G0 en50 (sober128_prng_start soberInit).2).2

/-- A concrete active sober128 instance, obtained by activating `soberAcc`. -/
def soberActive : Sober128Prng := (sober128_prng_ready soberAcc).2

/-- Claim C3: on an active instance with non-empty input, add_entropy rekeys:
it draws exactly capacity fresh keystream bytes from the current generator
(40 for sober128, 256 for rc4) into a buffer, XORs input byte i into buffer
position i mod capacity (the `mixWrap` loop), and re-derives the generator
from the mixed buffer by the binding's layout — for sober128, buffer bytes
0-31 become the key via setup and bytes 32-39 the IV via setiv, after which
the local buffer is zeroed; the instance stays ready throughout (and for
sober128 the entropy pool and index are untouched). -/
theorem c3_rekey_active (G : ByteFn) (input : List Nat)
    (sb : Sober128Prng) (sa : RC4Prng) (hin : input.length ≠ 0)
    (hb : sb.ready = true) (hbf : sb.s.fault = false)
    (ha : sa.ready = true) (haf : sa.s.fault = false) :
    (sober128_prng_add_entropy G input sb
        = (CryptCode.ok,
           { sb with s := (sober128_setiv
                    (sober128_setup ((mixWrap 40 (ksBytes G sb.s 40) input).take 32))
                    ((mixWrap 40 (ksBytes G sb.s 40) input).drop 32)) })
      ∧ (ksBytes G sb.s 40).length = 40
      ∧ (sober128_rekey G input sb.s).2.2 = List.replicate 40 0
      ∧ (sober128_prng_add_entropy G input sb).2.ready = true
      ∧ (sober128_prng_add_entropy G input sb).2.ent = sb.ent
      ∧ (sober128_prng_add_entropy G input sb).2.idx = sb.idx)
    ∧ (rc4_prng_add_entropy G input sa
        = (CryptCode.ok,
           { sa with s := (rc4_discard G
                    (rc4_setup ((mixWrap 256 (ksBytes G sa.s 256) input).take 256))) })
      ∧ (ksBytes G sa.s 256).length = 256
      ∧ (rc4_prng_add_entropy G input sa).2.ready = true) := by
  refine ⟨⟨?_, ?_, ?_, ?_, ?_, ?_⟩, ?_, ?_, ?_⟩
  · simp [sober128_prng_add_entropy, hin, hb, sober128_rekey,
          sober128_keystream, hbf]
  · exact ksBytes_length G sb.s 40
  · simp [sober128_rekey, sober128_keystream, hbf]
  · simp [sober128_prng_add_entropy, hin, hb, sober128_rekey,
          sober128_keystream, hbf]
  · simp [sober128_prng_add_entropy, hin, hb, sober128_rekey,
          sober128_keystream, hbf]
  · simp [sober128_prng_add_entropy, hin, hb, sober128_rekey,
          sober128_keystream, hbf]
  · simp [rc4_prng_add_entropy, hin, ha, rc4_rekey, rc4_keystream, haf]
  · exact ksBytes_length G sa.s 256
  · simp [rc4_prng_add_entropy, hin, ha, rc4_rekey, rc4_keystream, haf]

/-- Claim C3 witness: the theorem applied to the concrete active instances
with the one-byte input 9. -/
theorem c3_rekey_active_witness :
    ([9] : List Nat).length ≠ 0 ∧ soberActive.ready = true
    ∧ soberActive.s.fault = false ∧ rc4Active.ready = true
    ∧ rc4Active.s.fault = false
    ∧ (sober128_prng_add_entropy G0 [9] soberActive).2.ready = true :=
  ⟨by decide, by decide, by decide, by decide, by decide,
   (c3_rekey_active G0 [9] soberActive rc4Active (by decide) (by decide)
      (by decide) (by decide) (by decide)).1.2.2.2.1⟩

/-- Claim C4: on an accumulating instance with non-empty input of any
length, add_entropy XORs input byte j into pool index (idx + j) mod capacity
(the `poolAccum` loop), increments the write index by exactly the input
length, keeps the pool size unchanged, keeps the ready flag false, and every
written index is strictly below the capacity (256 for rc4, 40 for
sober128). -/
theorem c4_accumulate_bound (G : ByteFn) (input : List Nat)
    (sb : Sober128Prng) (sa : RC4Prng) (hin : input.length ≠ 0)
    (hb : sb.ready = false) (ha : sa.ready = false) :
    (sober128_prng_add_entropy G input sb
        = (CryptCode.ok, { sb with ent := poolAccum 40 input sb.ent sb.idx,
                                   idx := sb.idx + input.length })
      ∧ (sober128_prng_add_entropy G input sb).2.ready = false
      ∧ (poolAccum 40 input sb.ent sb.idx).length = sb.ent.length
      ∧ (∀ j, j < input.length → poolWriteIndex 40 sb.idx j < 40))
    ∧ (rc4_prng_add_entropy G input sa
        = (CryptCode.ok, { sa with buf := poolAccum 256 input sa.buf sa.x,
                                   x := sa.x + input.length })
      ∧ (rc4_prng_add_entropy G input sa).2.ready = false
      ∧ (poolAccum 256 input sa.buf sa.x).length = sa.buf.length
      ∧ (∀ j, j < input.length → poolWriteIndex 256 sa.x j < 256)) := by
  refine ⟨⟨?_, ?_, ?_, ?_⟩, ?_, ?_, ?_, ?_⟩
  · simp [sober128_prng_add_entropy, hin, hb]
  · simp [sober128_prng_add_entropy, hin, hb]
  · exact poolAccum_length 40 input sb.ent sb.idx
  · intro j _
    exact Nat.mod_lt _ (by norm_num)
  · simp [rc4_prng_add_entropy, hin, ha]
  · simp [rc4_prng_add_entropy, hin, ha]
  · exact poolAccum_length 256 input sa.buf sa.x
  · intro j _
    exact Nat.mod_lt _ (by norm_num)

/-- Claim C4 witness: the theorem applied to the concrete fresh instances
with a 100-byte input (far longer than the sober128 pool capacity). -/
theorem c4_accumulate_bound_witness :
    ((List.range 100).map (fun i => i % 256)).length ≠ 0
    ∧ soberInit.ready = false ∧ rc4Init.ready = false
    ∧ (sober128_prng_add_entropy G0 ((List.range 100).map (fun i => i % 256))
        soberInit).2.ready = false :=
  ⟨by decide, by decide, by decide,
   (c4_accumulate_bound G0 ((List.range 100).map (fun i => i % 256))
      soberInit rc4Init (by decide) (by decide) (by decide)).1.2.1⟩

/-- Claim C5 (amended): after sober128_prng_done, the ready flag is false
and a subsequent add_entropy or read does not fail with any invalid-state
error: add_entropy returns CRYPT_OK and accumulates into the still-present
entropy pool, and read returns exactly the requested byte count from the
destroyed-and-reset generator state. -/
theorem c5_post_stop_behavior (G : ByteFn) (st : Sober128Prng)
    (bs : List Nat) (n : Nat) (hbs : bs.length ≠ 0) (hn : n ≠ 0) :
    ((sober128_prng_done st).2.ready = false)
    ∧ (sober128_prng_add_entropy G bs (sober128_prng_done st).2).1
        = CryptCode.ok
    ∧ (sober128_prng_add_entropy G bs (sober128_prng_done st).2).2.ready
        = false
    ∧ (sober128_prng_read G n true (some (sober128_prng_done st).2)).1 = n := by
  refine ⟨?_, ?_, ?_, ?_⟩
  · simp [sober128_prng_done, sober128_done]
  · simp [sober128_prng_add_entropy, hbs, sober128_prng_done, sober128_done]
  · simp [sober128_prng_add_entropy, hbs, sober128_prng_done, sober128_done]
  · simp [sober128_prng_read, hn, sober128_prng_done, sober128_done,
          sober128_keystream]

/-- Claim C5 witness: the theorem applied to the concrete active instance,
one entropy byte and a 10-byte read. -/
theorem c5_post_stop_behavior_witness :
    ([1] : List Nat).length ≠ 0 ∧ (10 : Nat) ≠ 0
    ∧ (sober128_prng_read G0 10 true
        (some (sober128_prng_done soberActive).2)).1 = 10 :=
  ⟨by decide, by decide,
   (c5_post_stop_behavior G0 soberActive [1] 10 (by decide)
      (by decide)).2.2.2⟩

/-- Claim C5 counterexample: on the concrete stopped instance, add_entropy
completes with CRYPT_OK and read completes with the full nonzero byte count
10, contradicting the claim that neither completes with an Ok or
nonzero-count result. -/
theorem c5_cex :
    (sober128_prng_add_entropy G0 [1]
        (sober128_prng_done soberActive).2).1 = CryptCode.ok
    ∧ (sober128_prng_read G0 10 true
        (some (sober128_prng_done soberActive).2)).1 = 10
    ∧ (sober128_prng_read G0 10 true
        (some (sober128_prng_done soberActive).2)).1 ≠ 0 := by
  decide

/-- Claim C7: export with a destination capacity below the blob size (40
for sober128, 32 for rc4) fails with CRYPT_BUFFER_OVERFLOW, reports the
required size through the size parameter, and leaves the instance (hence the
generator position) untouched; with sufficient capacity it returns exactly
blob-size bytes of live keystream and advances the generator position by the
blob size; and when the underlying read cannot produce the blob (generator
fault, so the read returns fewer than blob-size bytes) it fails with
CRYPT_ERROR_READPRNG. -/
theorem c7_export_contract (G : ByteFn) (cap : Nat)
    (sb : Sober128Prng) (sa : RC4Prng)
    (_hb : sb.ready = true) (_ha : sa.ready = true) :
    ((cap < 40 →
        sober128_prng_export G cap sb = (CryptCode.bufferOverflow, 40, [], sb))
      ∧ (40 ≤ cap → sb.s.fault = false →
          sober128_prng_export G cap sb
            = (CryptCode.ok, 40, ksBytes G sb.s 40,
               { sb with s := { sb.s with pos := sb.s.pos + 40 } }))
      ∧ (40 ≤ cap → sb.s.fault = true →
          (sober128_prng_export G cap sb).1 = CryptCode.readPrng))
    ∧ ((cap < 32 →
        rc4_prng_export G cap sa = (CryptCode.bufferOverflow, 32, [], sa))
      ∧ (32 ≤ cap → sa.s.fault = false →
          rc4_prng_export G cap sa
            = (CryptCode.ok, 32, ksBytes G sa.s 32,
               { sa with s := { sa.s with pos := sa.s.pos + 32 } }))
      ∧ (32 ≤ cap → sa.s.fault = true →
          (rc4_prng_export G cap sa).1 = CryptCode.readPrng)) := by
  refine ⟨⟨?_, ?_, ?_⟩, ?_, ?_, ?_⟩
  · intro h
    simp [sober128_prng_export, h]
  · intro h hf
    simp [sober128_prng_export, not_lt.mpr h, sober128_prng_read,
          sober128_keystream, hf]
  · intro h hf
    simp [sober128_prng_export, not_lt.mpr h, sober128_prng_read,
          sober128_keystream, hf]
  · intro h
    simp [rc4_prng_export, h]
  · intro h hf
    simp [rc4_prng_export, not_lt.mpr h, rc4_prng_read, rc4_keystream, hf]
  · intro h hf
    simp [rc4_prng_export, not_lt.mpr h, rc4_prng_read, rc4_keystream, hf]

/-- Claim C7 witness: the theorem applied to the concrete active instances
with a one-byte-short capacity of 39, hitting the overflow branch. -/
theorem c7_export_contract_witness :
    soberActive.ready = true ∧ rc4Active.ready = true ∧ (39 : Nat) < 40
    ∧ sober128_prng_export G0 39 soberActive
        = (CryptCode.bufferOverflow, 40, [], soberActive) :=
  ⟨by decide, by decide, by decide,
   (c7_export_contract G0 39 soberActive rc4Active (by decide)
      (by decide)).1.1 (by decide)⟩

/-- Claim C8's reference semantics for sober128, stated from the spec's
words: the import operation is equivalent to start followed by add_entropy
with the blob. -/
def sober128_import_spec (G : ByteFn) (input : List Nat)
    (st : Sober128Prng) : CryptCode × Sober128Prng :=
  sober128_prng_add_entropy G input (sober128_prng_start st).2

/-- Claim C8's reference semantics for rc4, stated from the spec's words:
the import operation is equivalent to start followed by add_entropy with
the blob. -/
def rc4_import_spec (G : ByteFn) (input : List Nat) (st : RC4Prng) :
    CryptCode × RC4Prng :=
  rc4_prng_add_entropy G input (rc4_prng_start st).2

/-- Claim C8: for a blob at least as long as the minimum seed size (40 for
sober128, 32 for rc4), import equals start followed by add_entropy of the
blob — a fresh accumulating instance (ready = false) whose pool is the blob
accumulated into a zeroed pool and whose write index is the blob length —
and for a shorter blob import fails with CRYPT_INVALID_ARG, leaving the
instance unchanged. -/
theorem c8_import_refines (G : ByteFn) (input : List Nat)
    (sb : Sober128Prng) (sa : RC4Prng) :
    ((40 ≤ input.length →
        sober128_prng_import G input sb = sober128_import_spec G input sb
        ∧ (sober128_prng_import G input sb).2.ready = false
        ∧ (sober128_prng_import G input sb).2.idx = input.length
        ∧ (sober128_prng_import G input sb).2.ent
            = poolAccum 40 input (List.replicate 40 0) 0)
      ∧ (input.length < 40 →
          sober128_prng_import G input sb = (CryptCode.invalidArg, sb)))
    ∧ ((32 ≤ input.length →
        rc4_prng_import G input sa = rc4_import_spec G input sa
        ∧ (rc4_prng_import G input sa).2.ready = false
        ∧ (rc4_prng_import G input sa).2.x = input.length
        ∧ (rc4_prng_import G input sa).2.buf
            = poolAccum 256 input (List.replicate 256 0) 0)
      ∧ (input.length < 32 →
          rc4_prng_import G input sa = (CryptCode.invalidArg, sa))) := by
  constructor
  · constructor
    · intro h
      have hne : input.length ≠ 0 := by omega
      have hnl : ¬ input.length < 40 := by omega
      refine ⟨?_, ?_, ?_, ?_⟩ <;>
        simp [sober128_prng_import, hnl, sober128_import_spec,
              sober128_prng_start, sober128_prng_add_entropy, hne]
    · intro h
      simp [sober128_prng_import, h]
  · constructor
    · intro h
      have hne : input.length ≠ 0 := by omega
      have hnl : ¬ input.length < 32 := by omega
      refine ⟨?_, ?_, ?_, ?_⟩ <;>
        simp [rc4_prng_import, hnl, rc4_import_spec, rc4_prng_start,
              rc4_prng_add_entropy, hne]
    · intro h
      simp [rc4_prng_import, h]

/-- Claim C8 witness: the theorem applied to concrete instances and the
50-byte blob, hitting the long-enough branch of both bindings. -/
theorem c8_import_refines_witness :
    (40 : Nat) ≤ en50.length ∧ (32 : Nat) ≤ en50.length
    ∧ (sober128_prng_import G0 en50 soberActive).2.ready = false
    ∧ (rc4_prng_import G0 en50 rc4Active).2.ready = false :=
  ⟨by decide, by decide,
   ((c8_import_refines G0 en50 soberActive rc4Active).1.1 (by decide)).2.1,
   ((c8_import_refines G0 en50 soberActive rc4Active).2.1 (by decide)).2.1⟩

/-- Claim C9: read returns 0 when the requested length is 0, when the prng
reference is NULL, when the output reference is NULL, or when the underlying
keystream call fails; otherwise it returns exactly the requested count with
that many generator bytes, advancing the generator position by exactly that
count; the returned count is never strictly between 0 and the request. -/
theorem c9_read_contract (G : ByteFn) (n : Nat) (ov : Bool)
    (sb : Sober128Prng) (sa : RC4Prng) :
    ((sober128_prng_read G 0 ov (some sb)).1 = 0
      ∧ (sober128_prng_read G n ov none).1 = 0
      ∧ (sober128_prng_read G n false (some sb)).1 = 0
      ∧ (sb.s.fault = true → (sober128_prng_read G n true (some sb)).1 = 0)
      ∧ (n ≠ 0 → sb.s.fault = false →
          sober128_prng_read G n true (some sb)
            = (n, ksBytes G sb.s n,
               some { sb with s := { sb.s with pos := sb.s.pos + n } })
          ∧ (ksBytes G sb.s n).length = n)
      ∧ ((sober128_prng_read G n ov (some sb)).1 = 0
          ∨ (sober128_prng_read G n ov (some sb)).1 = n))
    ∧ ((rc4_prng_read G 0 ov (some sa)).1 = 0
      ∧ (rc4_prng_read G n ov none).1 = 0
      ∧ (rc4_prng_read G n false (some sa)).1 = 0
      ∧ (sa.s.fault = true → (rc4_prng_read G n true (some sa)).1 = 0)
      ∧ (n ≠ 0 → sa.s.fault = false →
          rc4_prng_read G n true (some sa)
            = (n, ksBytes G sa.s n,
               some { sa with s := { sa.s with pos := sa.s.pos + n } })
          ∧ (ksBytes G sa.s n).length = n)
      ∧ ((rc4_prng_read G n ov (some sa)).1 = 0
          ∨ (rc4_prng_read G n ov (some sa)).1 = n)) := by
  refine ⟨⟨?_, ?_, ?_, ?_, ?_, ?_⟩, ?_, ?_, ?_, ?_, ?_, ?_⟩
  · simp [sober128_prng_read]
  · simp [sober128_prng_read]
  · simp [sober128_prng_read]
  · intro hf
    by_cases hn : n = 0
    · simp [sober128_prng_read, hn]
    · simp [sober128_prng_read, hn, sober128_keystream, hf]
  · intro hn hf
    exact ⟨by simp [sober128_prng_read, hn, sober128_keystream, hf],
           ksBytes_length G sb.s n⟩
  · by_cases hm : n = 0 ∨ ov = false
    · left
      simp [sober128_prng_read, hm]
    · cases hf : sb.s.fault
      · right
        simp [sober128_prng_read, hm, sober128_keystream, hf]
      · left
        simp [sober128_prng_read, hm, sober128_keystream, hf]
  · simp [rc4_prng_read]
  · simp [rc4_prng_read]
  · simp [rc4_prng_read]
  · intro hf
    by_cases hn : n = 0
    · simp [rc4_prng_read, hn]
    · simp [rc4_prng_read, hn, rc4_keystream, hf]
  · intro hn hf
    exact ⟨by simp [rc4_prng_read, hn, rc4_keystream, hf],
           ksBytes_length G sa.s n⟩
  · by_cases hm : n = 0 ∨ ov = false
    · left
      simp [rc4_prng_read, hm]
    · cases hf : sa.s.fault
      · right
        simp [rc4_prng_read, hm, rc4_keystream, hf]
      · left
        simp [rc4_prng_read, hm, rc4_keystream, hf]

/-- Claim C9 witness: the theorem applied to the concrete active instances
with a 17-byte read on the success branch. -/
theorem c9_read_contract_witness :
    (17 : Nat) ≠ 0 ∧ soberActive.s.fault = false
    ∧ (sober128_prng_read G0 17 true (some soberActive)).1 = 17 :=
  ⟨by decide, by decide, by
    have h := ((c9_read_contract G0 17 true soberActive
        rc4Active).1.2.2.2.2.1 (by decide) (by decide)).1
    rw [h]⟩

/-- Claim C10: sober128_prng_done writes only the ready flag and the cipher
generator state — the 40-byte pool and its write index are unchanged, so
entropy accumulated before a stop persists and a subsequent add_entropy
keeps mixing from the old write index; the pool and index are zeroed by
start and by a make_ready performed on a not-ready instance, and read leaves
them unchanged. -/
theorem c10_done_frame (G : ByteFn) (st : Sober128Prng) (bs : List Nat)
    (n : Nat) (hbs : bs.length ≠ 0) :
    ((sober128_prng_done st).2.ent = st.ent
      ∧ (sober128_prng_done st).2.idx = st.idx
      ∧ (sober128_prng_done st).2.ready = false)
    ∧ ((sober128_prng_add_entropy G bs (sober128_prng_done st).2).2.ent
          = poolAccum 40 bs st.ent st.idx
      ∧ (sober128_prng_add_entropy G bs (sober128_prng_done st).2).2.idx
          = st.idx + bs.length)
    ∧ ((sober128_prng_start st).2.ent = List.replicate 40 0
      ∧ (sober128_prng_start st).2.idx = 0)
    ∧ (st.ready = false →
        (sober128_prng_ready st).2.ent = List.replicate 40 0
        ∧ (sober128_prng_ready st).2.idx = 0)
    ∧ (∃ st2, (sober128_prng_read G n true (some st)).2.2 = some st2
        ∧ st2.ent = st.ent ∧ st2.idx = st.idx) := by
  refine ⟨⟨rfl, rfl, rfl⟩, ⟨?_, ?_⟩, ⟨rfl, rfl⟩, ?_, ?_⟩
  · simp [sober128_prng_add_entropy, hbs, sober128_prng_done, sober128_done]
  · simp [sober128_prng_add_entropy, hbs, sober128_prng_done, sober128_done]
  · intro h
    simp [sober128_prng_ready, h]
  · by_cases hn : n = 0
    · exact ⟨st, by simp [sober128_prng_read, hn], rfl, rfl⟩
    · cases hf : st.s.fault
      · exact ⟨{ st with s := { st.s with pos := st.s.pos + n } },
          by simp [sober128_prng_read, hn, sober128_keystream, hf], rfl, rfl⟩
      · exact ⟨{ st with s := st.s },
          by simp [sober128_prng_read, hn, sober128_keystream, hf], rfl, rfl⟩

/-- Claim C10 witness: the theorem applied to the stopped concrete active
instance with one entropy byte and a 10-byte read; the pool and index
survive the stop. -/
theorem c10_done_frame_witness :
    ([4] : List Nat).length ≠ 0
    ∧ (sober128_prng_done soberActive).2.ent = soberActive.ent
    ∧ (sober128_prng_done soberActive).2.idx = soberActive.idx :=
  ⟨by decide,
   (c10_done_frame G0 soberActive [4] 10 (by decide)).1.1,
   (c10_done_frame G0 soberActive [4] 10 (by decide)).1.2.1⟩

/-- Claim C1 counterexample: a freshly started sober128 instance has
accumulated 0 of the 40 bytes the claim requires, yet make_ready succeeds
and activates the instance. -/
theorem c1_cex :
    (sober128_prng_start soberInit).2.idx = 0
    ∧ (sober128_prng_ready (sober128_prng_start soberInit).2).1 = CryptCode.ok
    ∧ (sober128_prng_ready (sober128_prng_start soberInit).2).2.ready = true := by
  decide
